import Mathlib

/-!
Verification of the bv e-commerce backend core: the Order Engine
(`src/app/api/v1/endpoints/orders.py`, `src/app/api/v1/endpoints/cart.py`,
`src/app/models/order.py`, `src/app/models/item.py`) and the Chat Registry
(`src/app/api/v1/endpoints/websocket.py`, `src/app/models/message.py`).

Prices are `Numeric(10,2)` columns; we embed them as `Int` (an exact
fixed-point amount in cents).  `stock_quantity` is an `Integer` column with
no database-level non-negativity constraint, so it is embedded as `Int`
(the code can in fact drive it negative, see the race model below).
Quantities are positive integers, embedded as `Nat`.

A FastAPI request runs inside `get_async_session`, which commits on success
and rolls back the whole unit of work when an exception escapes
(`src/app/db/database.py`).  Each endpoint is therefore embedded as a pure
function `State -> Except Error State`: the `.error` result models
"exception raised, transaction rolled back, database unchanged".
-/

namespace BV

/-- `app.models.item.Item` (the fields the order/cart core reads). -/
structure Item where
  id : Nat
  name : String
  price : Int
  stock_quantity : Int
  is_active : Bool
  owner_id : Nat
deriving Repr, DecidableEq

/-- `app.models.order.CartItem`: one (user, item) cart line. -/
structure CartItem where
  id : Nat
  user_id : Nat
  item_id : Nat
  quantity : Nat
deriving Repr, DecidableEq

/-- `app.models.order.OrderStatus`. -/
inductive OrderStatus where
  | PENDING
  | PAID
  | SHIPPED
  | DELIVERED
  | CANCELLED
deriving Repr, DecidableEq

/-- `app.models.order.Order` (timestamps omitted; `updated_at` carries no
information the claims depend on). -/
structure Order where
  id : Nat
  order_number : String
  status : OrderStatus
  total_price : Int
  shipping_address : Option String
  notes : Option String
  user_id : Nat
deriving Repr, DecidableEq

/-- `app.models.order.OrderItem`: one order line with its frozen price. -/
structure OrderItem where
  id : Nat
  order_id : Nat
  item_id : Nat
  quantity : Nat
  price_at_purchase : Int
deriving Repr, DecidableEq

/-- The relational store as seen by the order/cart endpoints. -/
structure DB where
  items : List Item
  cart_items : List CartItem
  orders : List Order
  order_items : List OrderItem
deriving Repr, DecidableEq

/-- Errors raised by the order endpoints (HTTP 400 responses in the code).
`missingItem` models a dangling `item_id` foreign key: the Python would
fault on `ci.item` being `None`; it cannot occur in a well-formed store. -/
inductive OrderError where
  | emptyCart
  | insufficientStock (itemName : String)
  | missingItem
deriving Repr, DecidableEq

deriving instance DecidableEq for Except

/-- Row lookup `SELECT ... FROM items WHERE id = iid` (the `joinedload`
of `CartItem.item`). -/
def findItem (db : DB) (iid : Nat) : Option Item :=
  db.items.find? (fun it => it.id == iid)

/-- The stock-check loop of `create_order` (orders.py lines 101-105):
raises on the first cart line whose quantity exceeds the item's stock,
naming that item. -/
def checkStock (db : DB) : List CartItem → Except OrderError Unit
  | [] => .ok ()
  | ci :: rest =>
    match findItem db ci.item_id with
    | none => .error .missingItem
    | some it =>
      if it.stock_quantity < (ci.quantity : Int) then
        .error (.insufficientStock it.name)
      else
        checkStock db rest

/-- `total = sum(ci.item.price * ci.quantity for ci in cart_items)`
(orders.py line 108), reading each item's live price. -/
def cartTotal (db : DB) : List CartItem → Except OrderError Int
  | [] => .ok 0
  | ci :: rest =>
    match findItem db ci.item_id with
    | none => .error .missingItem
    | some it =>
      (cartTotal db rest).map (fun t => it.price * (ci.quantity : Int) + t)

/-- The order-line construction of `create_order` (orders.py lines 122-129):
one `OrderItem` per cart line, `price_at_purchase` frozen to the item's
current price.  `lid` numbers the new rows. -/
def mkOrderLines (db : DB) (oid : Nat) : Nat → List CartItem → Except OrderError (List OrderItem)
  | _, [] => .ok []
  | lid, ci :: rest =>
    match findItem db ci.item_id with
    | none => .error .missingItem
    | some it =>
      (mkOrderLines db oid (lid + 1) rest).map
        (fun ls =>
          { id := lid, order_id := oid, item_id := ci.item_id,
            quantity := ci.quantity, price_at_purchase := it.price } :: ls)

/-- The decrement loop `ci.item.stock_quantity -= ci.quantity`
(orders.py line 132), applied once per cart line. -/
def decStockAll (items : List Item) (cart : List CartItem) : List Item :=
  cart.foldl
    (fun its ci =>
      its.map (fun it =>
        if it.id == ci.item_id then
          { it with stock_quantity := it.stock_quantity - (ci.quantity : Int) }
        else it))
    items

/-- `create_order` (orders.py lines 82-150), sequential semantics: fetch the
user's cart lines, reject an empty cart, run the stock-check loop, compute
the total from live prices, then in one transaction insert the order row
(status `PENDING`), insert the order lines with frozen prices, decrement
each item's stock and delete the user's cart lines.  `orderNumber` stands
for the generated `BVP-...` number, `oid` for the fresh order id assigned
at `flush`, `lidBase` for the first fresh order-line id. -/
def create_order (db : DB) (uid : Nat) (orderNumber addr : String)
    (notes : Option String) (oid lidBase : Nat) : Except OrderError DB :=
  let cart := db.cart_items.filter (fun ci => ci.user_id == uid)
  if cart.isEmpty then .error .emptyCart
  else
    match checkStock db cart with
    | .error e => .error e
    | .ok _ =>
      match cartTotal db cart, mkOrderLines db oid lidBase cart with
      | .error e, _ => .error e
      | .ok _, .error e => .error e
      | .ok total, .ok lines =>
        .ok { items := decStockAll db.items cart,
              cart_items := db.cart_items.filter (fun ci => !(ci.user_id == uid)),
              orders := db.orders ++
                [{ id := oid, order_number := orderNumber,
                   status := OrderStatus.PENDING, total_price := total,
                   shipping_address := some addr, notes := notes,
                   user_id := uid }],
              order_items := db.order_items ++ lines }

/-- The endpoint as the client observes it: on an exception the session is
rolled back (`get_async_session`), so the store is unchanged and the error
is surfaced. -/
def create_order_endpoint (db : DB) (uid : Nat) (orderNumber addr : String)
    (notes : Option String) (oid lidBase : Nat) : DB × Option OrderError :=
  match create_order db uid orderNumber addr notes oid lidBase with
  | .ok db2 => (db2, none)
  | .error e => (db, some e)

/-- `STATUS_TRANSITIONS` (orders.py lines 30-36). -/
def STATUS_TRANSITIONS : OrderStatus → List OrderStatus
  | .PENDING => [.PAID, .CANCELLED]
  | .PAID => [.SHIPPED, .CANCELLED]
  | .SHIPPED => [.DELIVERED]
  | .DELIVERED => []
  | .CANCELLED => []

/-- Errors raised by `update_order_status` (404 and 400 responses). -/
inductive StatusError where
  | notFound
  | illegalTransition (fromStatus toStatus : OrderStatus)
deriving Repr, DecidableEq

/-- `update_order_status` (orders.py lines 153-187): look the order up,
reject a transition not allowed by `STATUS_TRANSITIONS` before any write,
otherwise persist the new status.  Only the matching order row changes. -/
def update_order_status (db : DB) (oid : Nat) (newStatus : OrderStatus) :
    Except StatusError DB :=
  match db.orders.find? (fun o => o.id == oid) with
  | none => .error .notFound
  | some order =>
    if newStatus ∈ STATUS_TRANSITIONS order.status then
      .ok { db with
            orders := db.orders.map (fun o =>
              if o.id == oid then { o with status := newStatus } else o) }
    else
      .error (.illegalTransition order.status newStatus)

/-- `update_order_status` as the client observes it (rollback on error). -/
def update_order_status_endpoint (db : DB) (oid : Nat) (newStatus : OrderStatus) :
    DB × Option StatusError :=
  match update_order_status db oid newStatus with
  | .ok db2 => (db2, none)
  | .error e => (db, some e)

/-- Errors raised by `add_to_cart` (cart.py). -/
inductive CartError where
  | itemNotFound
  | insufficientStock
deriving Repr, DecidableEq

/-- `add_to_cart` (cart.py lines 48-98): find the active item, compare the
item's stock against this call's quantity only, then either increment the
existing (user, item) cart line or insert a new one. -/
def add_to_cart (db : DB) (uid iid qty newId : Nat) : Except CartError DB :=
  match db.items.find? (fun it => it.id == iid && it.is_active) with
  | none => .error .itemNotFound
  | some it =>
    if it.stock_quantity < (qty : Int) then .error .insufficientStock
    else
      match db.cart_items.find? (fun ci => ci.user_id == uid && ci.item_id == iid) with
      | some ci =>
        .ok { db with
              cart_items := db.cart_items.map (fun c =>
                if c.id == ci.id then { c with quantity := c.quantity + qty } else c) }
      | none =>
        .ok { db with
              cart_items := db.cart_items ++
                [{ id := newId, user_id := uid, item_id := iid, quantity := qty }] }

/-- `update_item` (items.py lines 130-154) restricted to a price edit: the
only store rows it touches are in `items`. -/
def update_item_price (db : DB) (iid : Nat) (newPrice : Int) : DB :=
  { db with
    items := db.items.map (fun it =>
      if it.id == iid then { it with price := newPrice } else it) }

/-! ## Chat Registry (`websocket.py`, `models/message.py`) -/

/-- Python `str.strip()`: whitespace removed from both ends.  (The builtin
`String.trim` is not kernel-reducible, so the same function is spelled out
over the character list.) -/
def strip (s : String) : String :=
  ⟨((s.data.dropWhile Char.isWhitespace).reverse.dropWhile Char.isWhitespace).reverse⟩

/-- `app.models.message.Message` (the `is_read` flag is never touched by the
websocket endpoint and is omitted).  Timestamps are abstract ticks. -/
structure ChatMsg where
  id : Nat
  sender_id : Nat
  receiver_id : Nat
  item_id : Nat
  text : String
  timestamp : Nat
deriving Repr, DecidableEq

/-- `app.models.user.User` restricted to what the websocket handshake reads. -/
structure WsUser where
  id : Nat
  is_active : Bool
deriving Repr, DecidableEq

/-- One entry of `ConnectionManager.connections`
(`{item_id: {user_id: websocket}}`); sockets are abstract handles. -/
structure Binding where
  item_id : Nat
  user_id : Nat
  socket : Nat
deriving Repr, DecidableEq

/-- `ConnectionManager.connect` (websocket.py lines 30-34): register the
(item, user) binding, overwriting any prior binding for the same pair. -/
def manager_connect (reg : List Binding) (sock uid item : Nat) : List Binding :=
  { item_id := item, user_id := uid, socket := sock } ::
    reg.filter (fun b => !(b.item_id == item && b.user_id == uid))

/-- The lookup inside `ConnectionManager.send_to_user` (websocket.py lines
40-42): the socket currently registered for (item, user), if any. -/
def lookupConn (reg : List Binding) (uid item : Nat) : Option Nat :=
  (reg.find? (fun b => b.item_id == item && b.user_id == uid)).map (fun b => b.socket)

/-- `ORDER BY timestamp DESC` on the message table: sort newest-first. -/
def sortByTimestampDesc (l : List ChatMsg) : List ChatMsg :=
  l.insertionSort (fun a b => b.timestamp ≤ a.timestamp)

instance : IsTotal ChatMsg (fun a b => b.timestamp ≤ a.timestamp) :=
  ⟨fun a b => Nat.le_total b.timestamp a.timestamp⟩

instance : IsTrans ChatMsg (fun a b => b.timestamp ≤ a.timestamp) :=
  ⟨fun _ _ _ hab hbc => Nat.le_trans hbc hab⟩

/-- The history snapshot of `websocket_chat` (websocket.py lines 78-98):
the channel's messages, newest-first, `LIMIT 50`, then reversed for the
payload (oldest first). -/
def chatHistory (msgs : List ChatMsg) (item : Nat) : List ChatMsg :=
  ((sortByTimestampDesc (msgs.filter (fun m => m.item_id == item))).take 50).reverse

/-- Outcome of the handshake part of `websocket_chat`. -/
inductive WsConnectResult where
  | rejected (closeCode : Nat)
  | accepted (uid : Nat) (history : List ChatMsg)
deriving Repr, DecidableEq

/-- The handshake of `websocket_chat` (websocket.py lines 59-100).
`tok` is the decoded token: `none` models a missing or malformed token
(`decode_token` returned `None`), `some uid` a token whose `sub` names
`uid`.  The handler closes with code 4001 and registers nothing when the
token is bad or the user row is absent; otherwise it registers the binding
and sends the history snapshot.  Note: the code checks only `if not user`,
it never reads `user.is_active`. -/
def websocket_connect (tok : Option Nat) (users : List WsUser)
    (msgs : List ChatMsg) (reg : List Binding) (sock item : Nat) :
    WsConnectResult × List Binding :=
  match tok with
  | none => (.rejected 4001, reg)
  | some uid =>
    match users.find? (fun u => u.id == uid) with
    | none => (.rejected 4001, reg)
    | some _ =>
      (.accepted uid (chatHistory msgs item), manager_connect reg sock uid item)

/-- One incoming client payload `{text, receiver_id}`.  `receiver_id` is
`none` when the key is absent from the JSON object. -/
structure WsPayload where
  text : String
  receiver_id : Option Nat
deriving Repr, DecidableEq

/-- Observable outcome of one iteration of the receive loop. -/
structure HandleResult where
  msgs : List ChatMsg
  delivered : Option Nat
  echoed : Bool
  errored : Bool
deriving Repr, DecidableEq

/-- One iteration of the receive loop of `websocket_chat` (websocket.py
lines 102-134).  `broken sock = true` models a registered connection whose
transport has failed, so that `send_json` on it raises.  Following the
code: `text = data.get("text", "").strip()`; the Python guard
`if not text or not receiver_id: continue` skips the iteration when the
stripped text is empty or `receiver_id` is absent or `0` (falsy).
Otherwise the message is persisted and committed, then sent to the
receiver's registered socket if any (an exception here aborts the
iteration), then echoed to the sender. -/
def handle_incoming (msgs : List ChatMsg) (reg : List Binding)
    (broken : Nat → Bool) (senderSock uid item newId now : Nat)
    (p : WsPayload) : HandleResult :=
  let text := strip p.text
  let receiverFalsy := match p.receiver_id with
    | none => true
    | some r => r == 0
  if text == "" || receiverFalsy then
    { msgs := msgs, delivered := none, echoed := false, errored := false }
  else
    let r := p.receiver_id.getD 0
    let msg : ChatMsg := { id := newId, sender_id := uid, receiver_id := r,
                           item_id := item, text := text, timestamp := now }
    let committed := msgs ++ [msg]
    match lookupConn reg r item with
    | some sock =>
      if broken sock then
        { msgs := committed, delivered := none, echoed := false, errored := true }
      else if broken senderSock then
        { msgs := committed, delivered := some sock, echoed := false, errored := true }
      else
        { msgs := committed, delivered := some sock, echoed := true, errored := false }
    | none =>
      if broken senderSock then
        { msgs := committed, delivered := none, echoed := false, errored := true }
      else
        { msgs := committed, delivered := none, echoed := true, errored := false }

/-! ## The stock-decrement race (`create_order` under concurrent scheduling)

`create_order` checks stock (lines 101-105) and decrements it (line 132)
in application code, with `await` suspension points in between (the
`flush` at line 119 and every other awaited store call), so under
FastAPI's cooperative scheduling another `CreateOrder` task can run
between a task's check and its decrement.  The model below projects two
concurrent `create_order` calls onto one shared item: each task first
performs the stock check, then (a suspension later) the decrement-and-commit. -/

/-- Progress of one checkout task through `create_order`. -/
inductive CheckoutPhase where
  | toCheck
  | toDecrement
  | finished
  | failed
deriving Repr, DecidableEq

/-- One in-flight `create_order` call for a single item. -/
structure CheckoutTask where
  quantity : Nat
  phase : CheckoutPhase
deriving Repr, DecidableEq

/-- One scheduler step of a checkout task against the shared stock value:
the check (orders.py line 102) either fails the call or lets it proceed;
the decrement (line 132) subtracts unconditionally. -/
def stepCheckout (stock : Int) (t : CheckoutTask) : Int × CheckoutTask :=
  match t.phase with
  | .toCheck =>
    if stock < (t.quantity : Int) then (stock, { t with phase := .failed })
    else (stock, { t with phase := .toDecrement })
  | .toDecrement => (stock - (t.quantity : Int), { t with phase := .finished })
  | _ => (stock, t)

/-- Run two concurrent checkout tasks under a schedule: `true` steps the
first task, `false` the second. -/
def runCheckoutSched (stock : Int) (t1 t2 : CheckoutTask) :
    List Bool → Int × CheckoutTask × CheckoutTask
  | [] => (stock, t1, t2)
  | b :: rest =>
    if b then
      let s := stepCheckout stock t1
      runCheckoutSched s.1 s.2 t2 rest
    else
      let s := stepCheckout stock t2
      runCheckoutSched s.1 t1 s.2 rest

/-- Quantity successfully purchased by a task. -/
def purchasedQty (t : CheckoutTask) : Nat :=
  if t.phase = .finished then t.quantity else 0

/-! ## Specification-side definitions and fixtures -/

/-- The status transition table exactly as the specification §4.1 lists it
(spec-side definition, compared against the code's `STATUS_TRANSITIONS`). -/
def specTransitionTable : List (OrderStatus × OrderStatus) :=
  [(.PENDING, .PAID), (.PENDING, .CANCELLED), (.PAID, .SHIPPED),
   (.PAID, .CANCELLED), (.SHIPPED, .DELIVERED)]

/-- The order-total invariant of the specification: every order with this id
has `total_price` equal to the sum of `price_at_purchase * quantity` over
its order lines. -/
def orderTotalInvariant (db : DB) (oid : Nat) : Prop :=
  ∀ o ∈ db.orders, o.id = oid →
    o.total_price =
      ((db.order_items.filter (fun l => l.order_id == oid)).map
        (fun l => l.price_at_purchase * (l.quantity : Int))).sum

/-- Every field of an order except its mutable `status`. -/
def orderFrame (o : Order) : Nat × String × Int × Option String × Option String × Nat :=
  (o.id, o.order_number, o.total_price, o.shipping_address, o.notes, o.user_id)

/-- Fixture: the §8 scenario item A (price 10.00, stock 2). -/
def itemA : Item := ⟨1, "A", 1000, 2, true, 9⟩

/-- Fixture: the §8 scenario item B (price 5.00, stock 5). -/
def itemB : Item := ⟨2, "B", 500, 5, true, 9⟩

/-- Fixture: user 5's cart line, item A times 2. -/
def cartA : CartItem := ⟨10, 5, 1, 2⟩

/-- Fixture: user 5's cart line, item B times 1. -/
def cartB : CartItem := ⟨11, 5, 2, 1⟩

/-- Fixture: the §8 scenario store before checkout. -/
def dbScenario : DB := ⟨[itemA, itemB], [cartA, cartB], [], []⟩

/-- Fixture: the order created by the §8 scenario checkout. -/
def scenarioOrder : Order := ⟨1, "BVP-1", .PENDING, 2500, some "addr", none, 5⟩

/-- Fixture: the §8 scenario store after checkout (A stock 0, B stock 4,
cart empty, total 25.00). -/
def dbScenarioAfter : DB :=
  ⟨[⟨1, "A", 1000, 0, true, 9⟩, ⟨2, "B", 500, 4, true, 9⟩], [],
   [scenarioOrder], [⟨100, 1, 1, 2, 1000⟩, ⟨101, 1, 2, 1, 500⟩]⟩

/-- Fixture: a cart line asking for 6 of item B (stock only 5). -/
def cartBigB : CartItem := ⟨11, 5, 2, 6⟩

/-- Fixture: a store whose second cart line is under-stocked. -/
def dbUnder : DB := ⟨[itemA, itemB], [cartA, cartBigB], [], []⟩

/-- Fixture: a store holding one `PENDING` order and an empty cart. -/
def dbPending : DB := ⟨[itemA, itemB], [], [scenarioOrder], []⟩

/-- Fixture: a `PAID` order. -/
def orderPaid : Order := ⟨2, "BVP-2", .PAID, 2500, some "addr", none, 5⟩

/-- Fixture: a store holding one `PAID` order with one order line. -/
def dbPaid : DB := ⟨[itemA, itemB], [], [orderPaid], [⟨100, 2, 1, 2, 1000⟩]⟩

/-- Fixture: `dbPaid` after the order was cancelled. -/
def dbPaidCancelled : DB :=
  ⟨[itemA, itemB], [], [⟨2, "BVP-2", .CANCELLED, 2500, some "addr", none, 5⟩],
   [⟨100, 2, 1, 2, 1000⟩]⟩

/-- Fixture: chat messages, three on channel 3 (timestamps 1, 2, 5) and one
on channel 4. -/
def msgsFix : List ChatMsg :=
  [⟨1, 7, 8, 3, "m1", 1⟩, ⟨2, 8, 7, 3, "m2", 2⟩, ⟨3, 7, 8, 4, "off", 3⟩,
   ⟨4, 8, 7, 3, "m3", 5⟩]

/-! ## Theorems -/

/-- Unpacking `Except.map` hitting `.ok`. -/
theorem exceptMap_ok {ε α β : Type} {f : α → β} {e : Except ε α} {b : β}
    (h : Except.map f e = .ok b) : ∃ a, e = .ok a ∧ b = f a := by
  cases e with
  | error e => simp [Except.map] at h
  | ok a =>
    simp only [Except.map, Except.ok.injEq] at h
    exact ⟨a, rfl, h.symm⟩

/-- The code table equals the table the specification §4.1 lists. -/
theorem mem_specTransitionTable_iff (s1 s2 : OrderStatus) :
    (s1, s2) ∈ specTransitionTable ↔ s2 ∈ STATUS_TRANSITIONS s1 := by
  cases s1 <;> cases s2 <;> decide

/-- `update_order_status` after a successful order lookup. -/
theorem update_order_status_eq (db : DB) (oid : Nat) (s2 : OrderStatus) (o : Order)
    (h : db.orders.find? (fun x => x.id == oid) = some o) :
    update_order_status db oid s2 =
      if s2 ∈ STATUS_TRANSITIONS o.status then
        .ok { db with orders := db.orders.map (fun x =>
                if x.id == oid then { x with status := s2 } else x) }
      else .error (.illegalTransition o.status s2) := by
  simp only [update_order_status, h]

/-- What a successful `create_order` run produced: the computed total, the
frozen-price order lines, the decremented stock, the drained cart and the
appended PENDING order row. -/
theorem create_order_ok_shape (db : DB) (uid : Nat) (onum addr : String)
    (notes : Option String) (oid lidBase : Nat) (db2 : DB)
    (h : create_order db uid onum addr notes oid lidBase = .ok db2) :
    ∃ total lines,
      cartTotal db (db.cart_items.filter (fun ci => ci.user_id == uid)) = .ok total ∧
      mkOrderLines db oid lidBase (db.cart_items.filter (fun ci => ci.user_id == uid)) = .ok lines ∧
      db2 = { items := decStockAll db.items (db.cart_items.filter (fun ci => ci.user_id == uid)),
              cart_items := db.cart_items.filter (fun ci => !(ci.user_id == uid)),
              orders := db.orders ++ [⟨oid, onum, .PENDING, total, some addr, notes, uid⟩],
              order_items := db.order_items ++ lines } := by
  simp only [create_order] at h
  split at h
  · simp at h
  · split at h
    · simp at h
    · split at h
      · simp at h
      · simp at h
      · rename_i total lines htot hlines
        simp only [Except.ok.injEq] at h
        exact ⟨total, lines, htot, hlines, h.symm⟩

/-- Lines produced by `mkOrderLines` all carry the new order's id. -/
theorem mkOrderLines_order_id (db : DB) (oid : Nat) :
    ∀ (cart : List CartItem) (lid : Nat) (lines : List OrderItem),
      mkOrderLines db oid lid cart = .ok lines → ∀ l ∈ lines, l.order_id = oid := by
  intro cart
  induction cart with
  | nil =>
    intro lid lines h l hl
    simp only [mkOrderLines, Except.ok.injEq] at h
    subst h
    simp at hl
  | cons ci rest ih =>
    intro lid lines h l hl
    simp only [mkOrderLines] at h
    cases hf : findItem db ci.item_id with
    | none => rw [hf] at h; simp at h
    | some it =>
      rw [hf] at h
      obtain ⟨ls, hls, heq⟩ := exceptMap_ok h
      subst heq
      rcases List.mem_cons.mp hl with hhead | htail
      · subst hhead; rfl
      · exact ih (lid + 1) ls hls l htail

/-- The total computed from live prices equals the sum of
`price_at_purchase * quantity` over the frozen order lines. -/
theorem cartTotal_eq_lines_sum (db : DB) (oid : Nat) :
    ∀ (cart : List CartItem) (lid : Nat) (t : Int) (lines : List OrderItem),
      cartTotal db cart = .ok t →
      mkOrderLines db oid lid cart = .ok lines →
      (lines.map (fun l => l.price_at_purchase * (l.quantity : Int))).sum = t := by
  intro cart
  induction cart with
  | nil =>
    intro lid t lines ht hl
    simp only [cartTotal, Except.ok.injEq] at ht
    simp only [mkOrderLines, Except.ok.injEq] at hl
    subst ht; subst hl
    simp
  | cons ci rest ih =>
    intro lid t lines ht hl
    simp only [cartTotal] at ht
    simp only [mkOrderLines] at hl
    cases hf : findItem db ci.item_id with
    | none => rw [hf] at ht; simp at ht
    | some it =>
      rw [hf] at ht
      rw [hf] at hl
      obtain ⟨t2, ht2, hteq⟩ := exceptMap_ok ht
      obtain ⟨ls, hls, hleq⟩ := exceptMap_ok hl
      subst hteq; subst hleq
      simp only [List.map_cons, List.sum_cons]
      rw [ih (lid + 1) t2 ls ht2 hls]

/-- The stock-check loop raises for the first under-stocked cart line,
naming its item, provided every earlier line is sufficiently stocked. -/
theorem checkStock_first_insufficient (db : DB) :
    ∀ (pre : List CartItem) (ci : CartItem) (post : List CartItem) (it : Item),
      (∀ cj ∈ pre, ∃ itj, findItem db cj.item_id = some itj ∧
        (cj.quantity : Int) ≤ itj.stock_quantity) →
      findItem db ci.item_id = some it →
      it.stock_quantity < (ci.quantity : Int) →
      checkStock db (pre ++ ci :: post) = .error (.insufficientStock it.name) := by
  intro pre
  induction pre with
  | nil =>
    intro ci post it _ hci hlt
    simp only [List.nil_append, checkStock, hci]
    rw [if_pos hlt]
  | cons cj rest ih =>
    intro ci post it hpre hci hlt
    obtain ⟨itj, hfind, hle⟩ := hpre cj (List.mem_cons_self cj rest)
    simp only [List.cons_append, checkStock, hfind]
    rw [if_neg (not_lt.mpr hle)]
    exact ih ci post it (fun x hx => hpre x (List.mem_cons_of_mem cj hx)) hci hlt

/-- Claim C3 (confirmed): with the order present, `update_order_status`
succeeds exactly when the (current, requested) pair is in the table
{PENDING→PAID, PENDING→CANCELLED, PAID→SHIPPED, PAID→CANCELLED,
SHIPPED→DELIVERED} of §4.1 (so every transition out of DELIVERED or
CANCELLED fails); on every pair outside the table it raises
`IllegalTransitionError` (the HTTP 400 "Нельзя перейти..." response) and
the rolled-back store — in particular the order's status — is unchanged. -/
theorem C3_update_status_transitions (db : DB) (oid : Nat) (s2 : OrderStatus)
    (o : Order) (h : db.orders.find? (fun x => x.id == oid) = some o) :
    ((o.status, s2) ∈ specTransitionTable →
      ∃ db2, update_order_status db oid s2 = .ok db2)
    ∧ ((o.status, s2) ∉ specTransitionTable →
      update_order_status_endpoint db oid s2 =
        (db, some (.illegalTransition o.status s2))) := by
  have hu := update_order_status_eq db oid s2 o h
  constructor
  · intro hmem
    have hp := (mem_specTransitionTable_iff o.status s2).mp hmem
    exact ⟨_, by rw [hu, if_pos hp]⟩
  · intro hmem
    have hnot : s2 ∉ STATUS_TRANSITIONS o.status :=
      fun hc => hmem ((mem_specTransitionTable_iff o.status s2).mpr hc)
    simp only [update_order_status_endpoint, hu, if_neg hnot]

/-- Witness for C3: on a store with one PENDING order, PENDING→PAID
succeeds and PENDING→DELIVERED fails with `IllegalTransitionError`,
leaving the store unchanged. -/
theorem C3_witness :
    (∃ db2, update_order_status dbPending 1 .PAID = .ok db2) ∧
    update_order_status_endpoint dbPending 1 .DELIVERED =
      (dbPending, some (.illegalTransition .PENDING .DELIVERED)) := by
  constructor
  · exact (C3_update_status_transitions dbPending 1 .PAID scenarioOrder
      (by decide)).1 (by decide)
  · exact (C3_update_status_transitions dbPending 1 .DELIVERED scenarioOrder
      (by decide)).2 (by decide)

/-- Claim C9 (confirmed): a successful `update_order_status` — including a
transition to CANCELLED — rewrites only the matching order's status: items
(so no restocking of decremented stock), cart lines and order lines are
untouched, every other order is untouched, and every order's id, number,
total, shipping address, notes and owner are unchanged. -/
theorem C9_update_status_frame (db : DB) (oid : Nat) (s2 : OrderStatus)
    (db2 : DB) (h : update_order_status db oid s2 = .ok db2) :
    db2.items = db.items ∧ db2.cart_items = db.cart_items ∧
    db2.order_items = db.order_items ∧
    db2.orders = db.orders.map (fun o =>
      if o.id == oid then { o with status := s2 } else o) ∧
    db2.orders.map orderFrame = db.orders.map orderFrame := by
  unfold update_order_status at h
  split at h
  · simp at h
  · split at h
    · simp only [Except.ok.injEq] at h
      subst h
      refine ⟨rfl, rfl, rfl, rfl, ?_⟩
      rw [List.map_map]
      refine List.map_congr_left ?_
      intro o _
      by_cases hc : o.id = oid <;> simp [hc, orderFrame]
    · simp at h

/-- Witness for C9: cancelling the PAID order of `dbPaid` changes exactly
its status field. -/
theorem C9_witness :
    dbPaidCancelled.items = dbPaid.items ∧
    dbPaidCancelled.cart_items = dbPaid.cart_items ∧
    dbPaidCancelled.order_items = dbPaid.order_items ∧
    dbPaidCancelled.orders = dbPaid.orders.map (fun o =>
      if o.id == 2 then { o with status := .CANCELLED } else o) ∧
    dbPaidCancelled.orders.map orderFrame = dbPaid.orders.map orderFrame :=
  C9_update_status_frame dbPaid 2 .CANCELLED dbPaidCancelled (by decide)

/-- Claim C2 (confirmed): when `create_order` succeeds and the new order id
is fresh, the stored `total_price` of that order equals the sum of
`price_at_purchase * quantity` over its order lines (each line's
`price_at_purchase` being the item price read during creation), and the
equation still holds after any later `update_item` price change, which
touches only the `items` table. -/
theorem C2_order_total_invariant (db : DB) (uid : Nat) (onum addr : String)
    (notes : Option String) (oid lidBase : Nat) (db2 : DB)
    (h : create_order db uid onum addr notes oid lidBase = .ok db2)
    (hlf : ∀ l ∈ db.order_items, l.order_id ≠ oid)
    (hof : ∀ o ∈ db.orders, o.id ≠ oid) :
    orderTotalInvariant db2 oid ∧
    ∀ iid newPrice, orderTotalInvariant (update_item_price db2 iid newPrice) oid := by
  obtain ⟨total, lines, htot, hlines, hdb2⟩ :=
    create_order_ok_shape db uid onum addr notes oid lidBase db2 h
  have hmain : orderTotalInvariant db2 oid := by
    subst hdb2
    intro o ho hid
    rcases List.mem_append.mp ho with hin | hin
    · exact absurd hid (hof o hin)
    · have hoeq : o = ⟨oid, onum, .PENDING, total, some addr, notes, uid⟩ := by
        simpa using hin
      subst hoeq
      have hfil1 : db.order_items.filter (fun l => l.order_id == oid) = [] :=
        List.filter_eq_nil_iff.mpr (fun l hl => by
          simp only [beq_iff_eq]
          exact hlf l hl)
      have hfil2 : lines.filter (fun l => l.order_id == oid) = lines :=
        List.filter_eq_self.mpr (fun l hl => by
          simp only [beq_iff_eq]
          exact mkOrderLines_order_id db oid _ lidBase lines hlines l hl)
      simp only [List.filter_append, hfil1, hfil2, List.nil_append]
      exact (cartTotal_eq_lines_sum db oid _ lidBase total lines htot hlines).symm
  exact ⟨hmain, fun _ _ => hmain⟩

/-- Witness for C2: the §8 scenario.  Checking out item A (10.00, qty 2)
and item B (5.00, qty 1) yields the expected store: total 25.00, A stock
0, B stock 4, empty cart — and the total invariant holds before and after
any later price change. -/
theorem C2_witness :
    create_order dbScenario 5 "BVP-1" "addr" none 1 100 = .ok dbScenarioAfter ∧
    orderTotalInvariant dbScenarioAfter 1 ∧
    ∀ iid newPrice, orderTotalInvariant (update_item_price dbScenarioAfter iid newPrice) 1 := by
  refine ⟨by decide, ?_, ?_⟩
  · exact (C2_order_total_invariant dbScenario 5 "BVP-1" "addr" none 1 100
      dbScenarioAfter (by decide) (by decide) (by decide)).1
  · exact (C2_order_total_invariant dbScenario 5 "BVP-1" "addr" none 1 100
      dbScenarioAfter (by decide) (by decide) (by decide)).2

/-- Claim C4 (confirmed): `create_order` raises `EmptyCartError` when the
user's cart has no lines, and `InsufficientStockError` naming the first
under-stocked item when a line's quantity exceeds its item's stock; both
checks run before any write, so the rolled-back store — order rows, order
lines, stock and cart lines — is exactly the input store. -/
theorem C4_create_order_failures (db : DB) (uid : Nat) (onum addr : String)
    (notes : Option String) (oid lidBase : Nat) :
    (db.cart_items.filter (fun ci => ci.user_id == uid) = [] →
      create_order_endpoint db uid onum addr notes oid lidBase = (db, some .emptyCart))
    ∧ (∀ pre ci post it,
        db.cart_items.filter (fun ci => ci.user_id == uid) = pre ++ ci :: post →
        (∀ cj ∈ pre, ∃ itj, findItem db cj.item_id = some itj ∧
          (cj.quantity : Int) ≤ itj.stock_quantity) →
        findItem db ci.item_id = some it →
        it.stock_quantity < (ci.quantity : Int) →
        create_order_endpoint db uid onum addr notes oid lidBase =
          (db, some (.insufficientStock it.name))) := by
  constructor
  · intro hempty
    simp [create_order_endpoint, create_order, hempty]
  · intro pre ci post it hcart hpre hci hlt
    have hcs := checkStock_first_insufficient db pre ci post it hpre hci hlt
    have hne : (pre ++ ci :: post : List CartItem).isEmpty = false := by
      cases pre <;> simp
    simp [create_order_endpoint, create_order, hcart, hne, hcs]

/-- Witness for C4: an empty cart raises `EmptyCartError`; in `dbUnder`
(line 1: item A qty 2 of stock 2; line 2: item B qty 6 of stock 5) the
first under-stocked item "B" is named, and the store is returned
unchanged in both cases. -/
theorem C4_witness :
    create_order_endpoint dbPending 5 "n" "a" none 7 0 =
      (dbPending, some .emptyCart) ∧
    create_order_endpoint dbUnder 5 "n" "a" none 7 0 =
      (dbUnder, some (.insufficientStock "B")) := by
  constructor
  · exact (C4_create_order_failures dbPending 5 "n" "a" none 7 0).1 (by decide)
  · refine (C4_create_order_failures dbUnder 5 "n" "a" none 7 0).2
      [cartA] cartBigB [] itemB (by decide) ?_ (by decide) (by decide)
    intro cj hcj
    have hj : cj = cartA := by simpa using hcj
    subst hj
    exact ⟨itemA, by decide, by decide⟩

/-- Claim C1 (code_bug): the claim — and §5 of the specification — requires
the stock check and decrement of `create_order` to be a single atomic
read-modify-write, so that two concurrent calls never both succeed when
their combined quantity exceeds stock.  The code instead checks in
application code (orders.py line 102) and decrements later (line 132) with
`await` suspension points in between, exactly the pattern §5 calls a
correctness bug.  Witness interleaving: stock 1, two calls of quantity 1
each; both checks run before either decrement; both calls finish, the sum
purchased is 2 > 1, and the stored stock ends at -1. -/
theorem C1_stock_race_both_succeed :
    runCheckoutSched 1 ⟨1, .toCheck⟩ ⟨1, .toCheck⟩ [true, false, true, false] =
      (-1, ⟨1, .finished⟩, ⟨1, .finished⟩) ∧
    purchasedQty ⟨1, .finished⟩ + purchasedQty ⟨1, .finished⟩ = 2 ∧
    ¬(purchasedQty ⟨1, .finished⟩ + purchasedQty ⟨1, .finished⟩ ≤ 1) := by
  decide

/-- Claim C10 (confirmed): `add_to_cart` checks the item's stock against
this call's quantity only.  With item 1 at stock 1, two adds of quantity 1
by user 5 both succeed and merge into the single cart line `id 10` with
quantity 2 > stock 1; the over-stocked cart is only rejected later, when
`create_order` runs its stock check and raises `InsufficientStockError`
naming item "A". -/
theorem C10_add_to_cart_per_call_check :
    let it : Item := ⟨1, "A", 100, 1, true, 2⟩
    let db0 : DB := ⟨[it], [], [], []⟩
    let db1 : DB := ⟨[it], [⟨10, 5, 1, 1⟩], [], []⟩
    let db2 : DB := ⟨[it], [⟨10, 5, 1, 2⟩], [], []⟩
    add_to_cart db0 5 1 1 10 = .ok db1 ∧
    add_to_cart db1 5 1 1 10 = .ok db2 ∧
    db2.cart_items = [⟨10, 5, 1, 2⟩] ∧
    it.stock_quantity < (2 : Int) ∧
    create_order db2 5 "BVP-X" "addr" none 1 100 = .error (.insufficientStock "A") := by
  decide

/-- The `ORDER BY timestamp DESC` result is sorted newest-first. -/
theorem sortByTimestampDesc_pairwise (l : List ChatMsg) :
    List.Pairwise (fun a b => b.timestamp ≤ a.timestamp) (sortByTimestampDesc l) :=
  List.sorted_insertionSort _ l

/-- Sorting permutes the channel's messages. -/
theorem sortByTimestampDesc_perm (l : List ChatMsg) :
    (sortByTimestampDesc l).Perm l :=
  List.perm_insertionSort _ l

/-- Claim C5, amended (corrected): the claim demanded rejection also for
inactive users.  In fact the handshake rejects — closing with code 4001
and adding no binding — exactly when the token is missing/malformed or
names a non-existent user; a valid token naming an existing user is
accepted, registered and sent the history snapshot regardless of the
user's `is_active` flag, which `websocket_chat` never reads. -/
theorem C5_amended_handshake (tok : Option Nat) (users : List WsUser)
    (msgs : List ChatMsg) (reg : List Binding) (sock item : Nat) :
    (tok = none →
      websocket_connect tok users msgs reg sock item = (.rejected 4001, reg))
    ∧ (∀ uid, tok = some uid → users.find? (fun x => x.id == uid) = none →
      websocket_connect tok users msgs reg sock item = (.rejected 4001, reg))
    ∧ (∀ uid u, tok = some uid → users.find? (fun x => x.id == uid) = some u →
      (websocket_connect tok users msgs reg sock item).1 =
        .accepted uid (chatHistory msgs item)
      ∧ lookupConn (websocket_connect tok users msgs reg sock item).2 uid item =
          some sock) := by
  refine ⟨?_, ?_, ?_⟩
  · intro h; subst h; rfl
  · intro uid h hf; subst h
    simp [websocket_connect, hf]
  · intro uid u h hf; subst h
    refine ⟨by simp [websocket_connect, hf], ?_⟩
    simp [websocket_connect, hf, lookupConn, manager_connect]

/-- Witness for C5 (amended): a missing token and an unknown user are
rejected with close code 4001 and no registry change; an existing but
inactive user is accepted and registered. -/
theorem C5_witness :
    (websocket_connect none [] [] [] 99 3 = (.rejected 4001, [])) ∧
    (websocket_connect (some 8) [⟨7, true⟩] [] [] 99 3 = (.rejected 4001, [])) ∧
    ((websocket_connect (some 7) [⟨7, false⟩] [] [⟨3, 6, 50⟩] 99 3).1 =
        .accepted 7 (chatHistory [] 3) ∧
      lookupConn (websocket_connect (some 7) [⟨7, false⟩] [] [⟨3, 6, 50⟩] 99 3).2 7 3 =
        some 99) := by
  refine ⟨?_, ?_, ?_⟩
  · exact (C5_amended_handshake none [] [] [] 99 3).1 rfl
  · exact (C5_amended_handshake (some 8) [⟨7, true⟩] [] [] 99 3).2.1 8 rfl (by decide)
  · exact (C5_amended_handshake (some 7) [⟨7, false⟩] [] [⟨3, 6, 50⟩] 99 3).2.2
      7 ⟨7, false⟩ rfl (by decide)

/-- Claim C6, amended (corrected): a failure of the send to the receiver's
registered connection never prevents the message from being persisted (it
is committed before delivery is attempted), but it does prevent the
sender's confirmation echo: the exception aborts the loop iteration before
`websocket.send_json`, so no echo is sent. -/
theorem C6_amended_persist_without_echo (msgs : List ChatMsg)
    (reg : List Binding) (broken : Nat → Bool)
    (senderSock uid item newId now r sock : Nat) (p : WsPayload)
    (htext : strip p.text ≠ "") (hr : p.receiver_id = some r) (hr0 : r ≠ 0)
    (hconn : lookupConn reg r item = some sock) (hbroken : broken sock = true) :
    handle_incoming msgs reg broken senderSock uid item newId now p =
      { msgs := msgs ++ [⟨newId, uid, r, item, strip p.text, now⟩],
        delivered := none, echoed := false, errored := true } := by
  have h1 : (strip p.text == "") = false := beq_eq_false_iff_ne.mpr htext
  have h2 : (r == 0) = false := beq_eq_false_iff_ne.mpr hr0
  simp [handle_incoming, hr, h1, h2, hconn, hbroken]

/-- Witness for C6 (amended): receiver 20 is registered on socket 2 for
item 5 and that socket's transport has failed; the message is persisted
but no echo reaches the sender. -/
theorem C6_witness :
    handle_incoming [] [⟨5, 20, 2⟩] (fun s => s == 2) 1 10 5 3 100
        ⟨"hey", some 20⟩ =
      { msgs := [] ++ [⟨3, 10, 20, 5, strip "hey", 100⟩], delivered := none,
        echoed := false, errored := true } :=
  C6_amended_persist_without_echo [] [⟨5, 20, 2⟩] (fun s => s == 2)
    1 10 5 3 100 20 2 ⟨"hey", some 20⟩ (by decide) rfl (by decide) (by decide)
    (by decide)

/-- Claim C8, amended (corrected): `handle_incoming` ignores — persisting
nothing, delivering nothing, sending no error — any payload whose text is
empty after stripping or whose receiver id is missing or zero (Python
falsiness of `receiver_id`); for every other payload it persists exactly
one message whose text is the STRIPPED payload body (sender = connected
user, receiver = payload receiver, item = channel, timestamp = now),
delivers it exactly when a (item, receiver) binding is registered, and
echoes a confirmation to the sender. -/
theorem C8_amended_handle_incoming (msgs : List ChatMsg) (reg : List Binding)
    (senderSock uid item newId now : Nat) (p : WsPayload) :
    (strip p.text = "" ∨ p.receiver_id = none ∨ p.receiver_id = some 0 →
      handle_incoming msgs reg (fun _ => false) senderSock uid item newId now p =
        { msgs := msgs, delivered := none, echoed := false, errored := false })
    ∧ (∀ r, p.receiver_id = some r → r ≠ 0 → strip p.text ≠ "" →
      handle_incoming msgs reg (fun _ => false) senderSock uid item newId now p =
        { msgs := msgs ++ [⟨newId, uid, r, item, strip p.text, now⟩],
          delivered := lookupConn reg r item, echoed := true,
          errored := false }) := by
  constructor
  · intro hignore
    rcases hignore with h | h | h
    · simp [handle_incoming, h]
    · simp [handle_incoming, h]
    · simp [handle_incoming, h]
  · intro r hr hr0 htext
    have h1 : (strip p.text == "") = false := beq_eq_false_iff_ne.mpr htext
    have h2 : (r == 0) = false := beq_eq_false_iff_ne.mpr hr0
    cases hlc : lookupConn reg r item with
    | none => simp [handle_incoming, hr, h1, h2, hlc]
    | some sock => simp [handle_incoming, hr, h1, h2, hlc]

/-- Witness for C8 (amended): a valid payload with a registered receiver is
persisted with stripped text, delivered and echoed; an all-whitespace
payload is ignored outright. -/
theorem C8_witness :
    handle_incoming [] [⟨5, 20, 9⟩] (fun _ => false) 1 10 5 3 100
        ⟨" yo ", some 20⟩ =
      { msgs := [] ++ [⟨3, 10, 20, 5, strip " yo ", 100⟩],
        delivered := lookupConn [⟨5, 20, 9⟩] 20 5, echoed := true,
        errored := false } ∧
    handle_incoming [] [] (fun _ => false) 1 10 5 3 100 ⟨"   ", some 20⟩ =
      { msgs := [], delivered := none, echoed := false, errored := false } :=
  ⟨(C8_amended_handle_incoming [] [⟨5, 20, 9⟩] 1 10 5 3 100 ⟨" yo ", some 20⟩).2
      20 rfl (by decide) (by decide),
   (C8_amended_handle_incoming [] [] 1 10 5 3 100 ⟨"   ", some 20⟩).1
      (Or.inl (by decide))⟩

/-- Claim C7 (confirmed): an accepted `Connect` immediately receives the
history payload, which holds exactly `min(N, 50)` of the channel's `N`
persisted messages, every one drawn from that channel, every included
message at least as recent (by timestamp) as every excluded channel
message, ordered oldest-to-newest; and when `N ≤ 50` it is a permutation
of the whole channel (fetched newest-first, then reversed). -/
theorem C7_history_snapshot (users : List WsUser) (msgs : List ChatMsg)
    (reg : List Binding) (sock item uid : Nat) (u : WsUser)
    (hu : users.find? (fun x => x.id == uid) = some u) :
    (websocket_connect (some uid) users msgs reg sock item).1 =
      .accepted uid (chatHistory msgs item)
    ∧ (chatHistory msgs item).length =
        min (msgs.filter (fun m => m.item_id == item)).length 50
    ∧ List.Pairwise (fun a b : ChatMsg => a.timestamp ≤ b.timestamp)
        (chatHistory msgs item)
    ∧ (∀ m ∈ chatHistory msgs item, m ∈ msgs.filter (fun m => m.item_id == item))
    ∧ (∀ m ∈ chatHistory msgs item,
        ∀ m2 ∈ msgs.filter (fun m => m.item_id == item),
          m2 ∉ chatHistory msgs item → m2.timestamp ≤ m.timestamp)
    ∧ ((msgs.filter (fun m => m.item_id == item)).length ≤ 50 →
        (chatHistory msgs item).Perm (msgs.filter (fun m => m.item_id == item))) := by
  have hperm : (sortByTimestampDesc (msgs.filter (fun m => m.item_id == item))).Perm
      (msgs.filter (fun m => m.item_id == item)) :=
    sortByTimestampDesc_perm _
  have hsort : List.Pairwise (fun a b : ChatMsg => b.timestamp ≤ a.timestamp)
      (sortByTimestampDesc (msgs.filter (fun m => m.item_id == item))) :=
    sortByTimestampDesc_pairwise _
  have hhist : chatHistory msgs item =
      ((sortByTimestampDesc (msgs.filter (fun m => m.item_id == item))).take 50).reverse :=
    rfl
  refine ⟨by simp [websocket_connect, hu], ?_, ?_, ?_, ?_, ?_⟩
  · rw [hhist, List.length_reverse, List.length_take, hperm.length_eq]
    exact Nat.min_comm _ _
  · rw [hhist, List.pairwise_reverse]
    exact List.Pairwise.sublist (List.take_sublist 50 _) hsort
  · intro m hm
    rw [hhist, List.mem_reverse] at hm
    exact hperm.mem_iff.mp (List.take_subset 50 _ hm)
  · intro m hm m2 hm2 hnot
    rw [hhist, List.mem_reverse] at hm hnot
    have hm2s : m2 ∈ sortByTimestampDesc (msgs.filter (fun m => m.item_id == item)) :=
      hperm.mem_iff.mpr hm2
    have hpair := hsort
    rw [← List.take_append_drop 50
      (sortByTimestampDesc (msgs.filter (fun m => m.item_id == item)))] at hpair hm2s
    rcases List.mem_append.mp hm2s with hin | hin
    · exact absurd hin hnot
    · exact (List.pairwise_append.mp hpair).2.2 m hm m2 hin
  · intro hlen
    have htake : (sortByTimestampDesc (msgs.filter (fun m => m.item_id == item))).take 50 =
        sortByTimestampDesc (msgs.filter (fun m => m.item_id == item)) :=
      List.take_of_length_le (by rw [hperm.length_eq]; exact hlen)
    rw [hhist, htake]
    exact (List.reverse_perm _).trans hperm

/-- Witness for C7: user 7 connects to channel 3 of `msgsFix` (three
channel messages with timestamps 1, 2, 5 plus one off-channel message) and
receives exactly those three, oldest first. -/
theorem C7_witness :
    (websocket_connect (some 7) [⟨7, true⟩] msgsFix [] 99 3).1 =
      .accepted 7 (chatHistory msgsFix 3) ∧
    (chatHistory msgsFix 3).length =
      min (msgsFix.filter (fun m => m.item_id == 3)).length 50 ∧
    chatHistory msgsFix 3 =
      [⟨1, 7, 8, 3, "m1", 1⟩, ⟨2, 8, 7, 3, "m2", 2⟩, ⟨4, 8, 7, 3, "m3", 5⟩] := by
  have h := C7_history_snapshot [⟨7, true⟩] msgsFix [] 99 3 7 ⟨7, true⟩ (by decide)
  exact ⟨h.1, h.2.1, by decide⟩

/-- Claim C5, counterexample: the claim says a handshake token naming an
inactive user is rejected with no binding added.  At this concrete input —
token naming user 7, whose `is_active` flag is `false` — the connection is
accepted and the (item 3, user 7) binding is registered, because
`websocket_chat` only checks `if not user` and never reads `is_active`. -/
theorem C5_counterexample_inactive_user_accepted :
    (websocket_connect (some 7) [⟨7, false⟩] [] [] 99 3).1 = .accepted 7 [] ∧
    (websocket_connect (some 7) [⟨7, false⟩] [] [] 99 3).2 = [⟨3, 7, 99⟩] ∧
    lookupConn (websocket_connect (some 7) [⟨7, false⟩] [] [] 99 3).2 7 3 = some 99 := by
  decide

/-- Claim C6, counterexample: the claim says a failed send to the receiver
never prevents the persisted message's confirmation echo to the sender.  At
this concrete input the receiver (user 20, item 5) is registered on socket
2 whose transport has failed: the message is persisted, but the exception
from `send_to_user` aborts the loop iteration before `websocket.send_json`
runs, so no echo is sent (there is no try/except around the send in
websocket.py lines 130-134). -/
theorem C6_counterexample_echo_lost :
    (handle_incoming [] [⟨5, 20, 2⟩] (fun s => s == 2) 1 10 5 0 100
        ⟨"hello", some 20⟩) =
      { msgs := [⟨0, 10, 20, 5, "hello", 100⟩], delivered := none,
        echoed := false, errored := true } := by
  decide

/-- Claim C8, counterexample: the claim says the persisted ChatMessage's
text equals the payload body.  For the payload body `"  hi "` the code
persists `"hi"`: websocket.py line 105 strips the text
(`data.get("text", "").strip()`) before storing it. -/
theorem C8_counterexample_text_stripped :
    (handle_incoming [] [] (fun _ => false) 1 10 5 0 100 ⟨"  hi ", some 20⟩).msgs =
      [⟨0, 10, 20, 5, "hi", 100⟩] ∧
    (("hi" : String) ≠ "  hi ") ∧
    (handle_incoming [] [] (fun _ => false) 1 10 5 0 100 ⟨"  hi ", some 20⟩).echoed = true := by
  decide

end BV
